import Mathlib

/-!
Verification development for the UK property price-resilience forecasting
repository (Flask backend `backend/app.py`, model module
`uk_property_resilience_model_optimized.py`, multi-source scraper
`backend/scraper/multi_source_scraper.py`).

Python strings are embedded as `List Char` (`PyStr`), prices and other
float-valued quantities as `ℚ` (exact rational arithmetic standing in for
IEEE floats), dates as integer day counts, and Python exceptions as
`Except`/`Option` results.  Where the source takes a square root
(`pandas.Series.std`, `numpy.std`) the embedding carries the variance
(the square of the source value) so that every definition stays
computable over `ℚ`; such fields are suffixed `_sq` and documented at
their declaration.
-/

namespace Resilience

/-- Python `str` embedded as a list of characters. -/
abbrev PyStr := List Char

/-- Python `str.strip()`: remove leading and trailing whitespace. -/
def pyStrip (s : PyStr) : PyStr :=
  ((s.dropWhile Char.isWhitespace).reverse.dropWhile Char.isWhitespace).reverse

/-- Python `str.upper()` (ASCII case mapping suffices for postcodes). -/
def pyUpper (s : PyStr) : PyStr :=
  s.map Char.toUpper

/-- Helper for `pySplit`: structural recursion over the string with the
current (reversed) word as accumulator. -/
def pySplitAux : PyStr → PyStr → List PyStr
  | [], acc => if acc = [] then [] else [acc.reverse]
  | c :: cs, acc =>
    if c.isWhitespace then
      if acc = [] then pySplitAux cs [] else acc.reverse :: pySplitAux cs []
    else
      pySplitAux cs (c :: acc)

/-- Python `str.split()` with no argument: split on runs of whitespace,
discarding empty fields. -/
def pySplit (s : PyStr) : List PyStr :=
  pySplitAux s []

/--
`UKPropertyResiliencePredictor.extract_postcode_sector` from
`uk_property_resilience_model_optimized.py` (lines 94-103).  The input is
`Option PyStr`: `none` models a pandas `NaN` cell (`pd.isna`).  The source:
if the value is NaN or the empty string, return `None`; otherwise strip and
uppercase it and split on whitespace; if that yields exactly two parts,
return the first part, a space, and the first character of the second part;
otherwise return the stripped, uppercased postcode itself.
-/
def extract_postcode_sector (postcode : Option PyStr) : Option PyStr :=
  match postcode with
  | none => none
  | some p =>
    if p = [] then none
    else
      let q := pyUpper (pyStrip p)
      match pySplit q with
      | [a, b] => some (a ++ (' ' :: [b.headD ' ']))
      | _ => some q

lemma pySplitAux_word (w rest acc : PyStr) (hw : ∀ c ∈ w, ¬ c.isWhitespace) :
    pySplitAux (w ++ rest) acc = pySplitAux rest (w.reverse ++ acc) := by
  induction w generalizing acc with
  | nil => simp
  | cons c cs ih =>
    have hc : ¬ c.isWhitespace := hw c (List.mem_cons_self c cs)
    have hcs : ∀ d ∈ cs, ¬ d.isWhitespace := fun d hd => hw d (List.mem_cons_of_mem c hd)
    simp [pySplitAux, hc, ih _ hcs, List.append_assoc]

lemma pySplit_two_words (a b : PyStr) (ha : a ≠ []) (hb : b ≠ [])
    (hwa : ∀ c ∈ a, ¬ c.isWhitespace) (hwb : ∀ c ∈ b, ¬ c.isWhitespace) :
    pySplit (a ++ ' ' :: b) = [a, b] := by
  unfold pySplit
  rw [pySplitAux_word a (' ' :: b) [] hwa]
  have hsp : (' ').isWhitespace = true := by decide
  have hb2 : pySplitAux b [] = [b] := by
    conv_lhs => rw [← List.append_nil b]
    rw [pySplitAux_word b [] [] hwb]
    simp [pySplitAux, hb]
  simp [pySplitAux, hsp, ha, hb2]

/--
C3: corrected.  `extract_postcode_sector` returns `None` exactly for a
missing (NaN) or empty postcode.  When the stripped, uppercased form splits
into exactly two whitespace-separated parts it returns the outward code, a
space and the first character of the inward part.  In every other case it
returns the stripped, uppercased postcode itself — not `None` as the claim
states.
-/
theorem C3_extract_postcode_sector_characterization :
    (extract_postcode_sector none = none ∧ extract_postcode_sector (some []) = none) ∧
    (∀ p a b : PyStr, p ≠ [] → pyUpper (pyStrip p) = a ++ ' ' :: b →
      a ≠ [] → b ≠ [] →
      (∀ c ∈ a, ¬ c.isWhitespace) → (∀ c ∈ b, ¬ c.isWhitespace) →
      extract_postcode_sector (some p) = some (a ++ ' ' :: [b.headD ' '])) ∧
    (∀ p : PyStr, p ≠ [] → (pySplit (pyUpper (pyStrip p))).length ≠ 2 →
      extract_postcode_sector (some p) = some (pyUpper (pyStrip p))) := by
  refine ⟨⟨rfl, rfl⟩, ?_, ?_⟩
  · intro p a b hp hq ha hb hwa hwb
    simp only [extract_postcode_sector, hp, if_false, hq,
      pySplit_two_words a b ha hb hwa hwb]
  · intro p hp hlen
    simp only [extract_postcode_sector, hp, if_false]
    rcases hsp : pySplit (pyUpper (pyStrip p)) with _ | ⟨x, _ | ⟨y, _ | ⟨z, l⟩⟩⟩
    · rfl
    · rfl
    · exact absurd (by simp [hsp]) hlen
    · rfl

/--
C3 witness: the characterization applied to the concrete postcodes
`"sw7 3ph"` (two-part form, lower case with surrounding canonical content)
and `"SW7"` (one-part form). -/
theorem C3_witness :
    extract_postcode_sector (some ['s', 'w', '7', ' ', '3', 'p', 'h'])
        = some ['S', 'W', '7', ' ', '3'] ∧
    extract_postcode_sector (some ['S', 'W', '7']) = some ['S', 'W', '7'] := by
  constructor
  · exact C3_extract_postcode_sector_characterization.2.1
      ['s', 'w', '7', ' ', '3', 'p', 'h'] ['S', 'W', '7'] ['3', 'P', 'H']
      (by decide) (by decide) (by decide) (by decide) (by decide) (by decide)
  · exact C3_extract_postcode_sector_characterization.2.2 ['S', 'W', '7']
      (by decide) (by decide)

/--
C3 counterexample: on the non-empty postcode `"SW7"`, whose normalized form
has no space-delimited inward part, the code returns the normalized postcode
`"SW7"` itself, not `None` as the claim states. -/
theorem C3_counterexample :
    extract_postcode_sector (some ['S', 'W', '7']) = some ['S', 'W', '7'] ∧
    extract_postcode_sector (some ['S', 'W', '7']) ≠ none := by
  decide

/-! ### Multi-source scraper aggregation
Embedding of `MultiSourcePropertyScraper._aggregate_results` from
`backend/scraper/multi_source_scraper.py` (lines 103-156).  The per-source
results dict is embedded as an association list in insertion order; a JSON
value that may be absent is an `Option`. -/

/-- Result dict returned by one scraping source (`search_land_registry` /
`get_flood_risk`).  Fields mirror the keys `_aggregate_results` reads with
`.get`; an absent key is `none`.  Sale-history entries are kept as raw
strings since the aggregator copies the list verbatim. -/
structure SourceResult where
  success : Bool
  error : Option String
  last_sale_price : Option ℚ
  last_sale_date : Option String
  sale_history : Option (List String)
  risk_level : Option String
  risk_score : Option ℚ
  active_alerts : Option ℤ
  nearest_alert_message : Option String
deriving DecidableEq

/-- The `flood_risk` sub-dict the aggregator builds. -/
structure FloodRiskData where
  risk_level : Option String
  risk_score : Option ℚ
  active_alerts : Option ℤ
  nearest_alert : Option String
deriving DecidableEq

/-- The aggregated `data` dict.  The outer `Option` on each land-registry
field marks whether the key was set at all (it is set, possibly to JSON
null, exactly when the land-registry source succeeded). -/
structure AggregatedData where
  last_sale_price : Option (Option ℚ) := none
  last_sale_date : Option (Option String) := none
  sale_history : Option (List String) := none
  sale_history_source : Option String := none
  flood_risk : Option FloodRiskData := none
deriving DecidableEq

/-- The response dict built by `_aggregate_results`. -/
structure Aggregated where
  success : Bool
  address : String
  sources_queried : List String
  successful_sources : List String
  failed_sources : List (String × String)
  data : AggregatedData
  error : Option String
  raw_sources : Option (List (String × SourceResult))
deriving DecidableEq

/-- The `data` dict assembled from the successful sources only. -/
def buildAggregatedData (successful : List (String × SourceResult)) : AggregatedData :=
  let d0 : AggregatedData := {}
  let d1 := match List.lookup ("land_registry") successful with
    | some lr =>
      { d0 with
        last_sale_price := some lr.last_sale_price,
        last_sale_date := some lr.last_sale_date,
        sale_history := some (lr.sale_history.getD []),
        sale_history_source := some ("Land Registry (Official)") }
    | none => d0
  match List.lookup ("flood_risk") successful with
  | some fr =>
    { d1 with
      flood_risk := some ⟨fr.risk_level, fr.risk_score, fr.active_alerts,
        fr.nearest_alert_message⟩ }
  | none => d1

/-- `MultiSourcePropertyScraper._aggregate_results`: split the per-source
results into successes and failures, report overall success iff at least one
source succeeded, list each failure as a `(source, error)` record, and build
`data` from the successful sources only. -/
def aggregate_results (results : List (String × SourceResult)) (address : String) :
    Aggregated :=
  let successful := results.filter (fun r => r.2.success)
  let failedRecs := (results.filter (fun r => !r.2.success)).map
    (fun r => (r.1, r.2.error.getD ("Unknown error")))
  if successful = [] then
    { success := false, address := address,
      sources_queried := results.map Prod.fst,
      successful_sources := successful.map Prod.fst,
      failed_sources := failedRecs, data := {},
      error := some ("All sources failed"), raw_sources := none }
  else
    { success := true, address := address,
      sources_queried := results.map Prod.fst,
      successful_sources := successful.map Prod.fst,
      failed_sources := failedRecs, data := buildAggregatedData successful,
      error := none, raw_sources := some successful }

lemma lookup_mem {α β : Type} [BEq α] [LawfulBEq α] {l : List (α × β)} {a : α} {b : β}
    (h : List.lookup a l = some b) : (a, b) ∈ l := by
  induction l with
  | nil => simp [List.lookup] at h
  | cons x xs ih =>
    rw [List.lookup] at h
    by_cases hx : (a == x.1) = true
    · rw [hx] at h
      simp only [Option.some.injEq] at h
      have hax : a = x.1 := eq_of_beq hx
      have : (a, b) = x := by
        rw [hax, ← h]
      rw [this]
      exact List.mem_cons_self x xs
    · rw [Bool.not_eq_true] at hx
      rw [hx] at h
      exact List.mem_cons_of_mem _ (ih h)

lemma mem_success_filter {results : List (String × SourceResult)} {s : String}
    {res : SourceResult} :
    (s, res) ∈ results.filter (fun r => r.2.success) ↔
      (s, res) ∈ results ∧ res.success = true := by
  simp [List.mem_filter]

/--
C10: confirmed.  `_aggregate_results` reports overall success exactly when at
least one source succeeded (so with one survivor among failures the batch
still succeeds), success is false exactly when every queried source failed,
each failed source appears in `failed_sources` as a structured
`(source, error)` record, `successful_sources` lists exactly the survivors,
and the aggregated `data` draws only on sources that succeeded.
-/
theorem C10_aggregate_results_partial_success
    (results : List (String × SourceResult)) (address : String) :
    ((aggregate_results results address).success = true ↔
      ∃ r ∈ results, r.2.success = true) ∧
    ((aggregate_results results address).success = false ↔
      ∀ r ∈ results, r.2.success = false) ∧
    (∀ s e, (s, e) ∈ (aggregate_results results address).failed_sources ↔
      ∃ res : SourceResult, (s, res) ∈ results ∧ res.success = false ∧
        e = res.error.getD ("Unknown error")) ∧
    (∀ s, s ∈ (aggregate_results results address).successful_sources ↔
      ∃ res : SourceResult, (s, res) ∈ results ∧ res.success = true) ∧
    (((aggregate_results results address).data.last_sale_price ≠ none ∨
      (aggregate_results results address).data.last_sale_date ≠ none ∨
      (aggregate_results results address).data.sale_history ≠ none ∨
      (aggregate_results results address).data.sale_history_source ≠ none) →
      ∃ res : SourceResult, (("land_registry"), res) ∈ results ∧
        res.success = true) ∧
    ((aggregate_results results address).data.flood_risk ≠ none →
      ∃ res : SourceResult, (("flood_risk"), res) ∈ results ∧
        res.success = true) := by
  have hdataNone : buildAggregatedData [] = {} := by rfl
  have hfailed : ∀ s e,
      ((s, e) ∈ (results.filter (fun r => !r.2.success)).map
        (fun r => (r.1, r.2.error.getD ("Unknown error")))) ↔
      ∃ res : SourceResult, (s, res) ∈ results ∧ res.success = false ∧
        e = res.error.getD ("Unknown error") := by
    intro s e
    simp only [List.mem_map, List.mem_filter, Bool.not_eq_eq_eq_not, Bool.not_true]
    constructor
    · rintro ⟨⟨s1, res⟩, ⟨hmem, hf⟩, heq⟩
      rw [Prod.mk.injEq] at heq
      exact ⟨res, by rw [← heq.1]; exact hmem, hf, heq.2.symm⟩
    · rintro ⟨res, hmem, hf, rfl⟩
      exact ⟨(s, res), ⟨hmem, hf⟩, rfl⟩
  have hsucc : ∀ s, (s ∈ (results.filter (fun r => r.2.success)).map Prod.fst ↔
      ∃ res : SourceResult, (s, res) ∈ results ∧ res.success = true) := by
    intro s
    simp only [List.mem_map, List.mem_filter]
    constructor
    · rintro ⟨⟨s1, res⟩, ⟨hmem, hf⟩, heq⟩
      exact ⟨res, by rw [show s = s1 from heq.symm]; exact hmem, hf⟩
    · rintro ⟨res, hmem, hf⟩
      exact ⟨(s, res), ⟨hmem, hf⟩, rfl⟩
  have hdata : ∀ successful : List (String × SourceResult),
      ((buildAggregatedData successful).last_sale_price ≠ none ∨
        (buildAggregatedData successful).last_sale_date ≠ none ∨
        (buildAggregatedData successful).sale_history ≠ none ∨
        (buildAggregatedData successful).sale_history_source ≠ none →
        ∃ lr, List.lookup ("land_registry") successful = some lr) ∧
      ((buildAggregatedData successful).flood_risk ≠ none →
        ∃ fr, List.lookup ("flood_risk") successful = some fr) := by
    intro successful
    rcases hlr : List.lookup ("land_registry") successful with _ | lr <;>
      rcases hfr : List.lookup ("flood_risk") successful with _ | fr <;>
      simp [buildAggregatedData, hlr, hfr]
  by_cases hS : results.filter (fun r => r.2.success) = []
  · have hnone : ∀ r ∈ results, r.2.success = false := by
      intro r hr
      by_contra hcon
      have hmem : r ∈ results.filter (fun r => r.2.success) :=
        List.mem_filter.mpr ⟨hr, by simp at hcon; exact hcon⟩
      rw [hS] at hmem
      exact absurd hmem (List.not_mem_nil r)
    refine ⟨?_, ?_, ?_, ?_, ?_, ?_⟩
    · simp only [aggregate_results, hS, if_true]
      constructor
      · intro h
        exact absurd h (by simp)
      · rintro ⟨r, hr, hs⟩
        exact absurd hs (by rw [hnone r hr]; simp)
    · simp only [aggregate_results, hS, if_true]
      exact ⟨fun _ => hnone, fun _ => trivial⟩
    · intro s e
      simp only [aggregate_results, hS, if_true]
      exact hfailed s e
    · intro s
      simp only [aggregate_results, hS, if_true, hS]
      simp only [List.map_nil, List.not_mem_nil, false_iff]
      rintro ⟨res, hmem, hf⟩
      exact absurd hf (by rw [hnone (s, res) hmem]; simp)
    · simp only [aggregate_results, hS, if_true]
      intro h
      rcases h with h | h | h | h <;> exact absurd rfl h
    · simp only [aggregate_results, hS, if_true]
      intro h
      exact absurd rfl h
  · refine ⟨?_, ?_, ?_, ?_, ?_, ?_⟩
    · simp only [aggregate_results, hS, if_false]
      constructor
      · intro _
        rcases List.exists_mem_of_ne_nil _ hS with ⟨r, hr⟩
        rcases List.mem_filter.mp hr with ⟨hmem, hf⟩
        exact ⟨r, hmem, hf⟩
      · intro _
        trivial
    · simp only [aggregate_results, hS, if_false]
      constructor
      · intro h
        exact absurd h (by simp)
      · intro h
        rcases List.exists_mem_of_ne_nil _ hS with ⟨r, hr⟩
        rcases List.mem_filter.mp hr with ⟨hmem, hf⟩
        exact absurd hf (by rw [h r hmem]; simp)
    · intro s e
      simp only [aggregate_results, hS, if_false]
      exact hfailed s e
    · intro s
      simp only [aggregate_results, hS, if_false]
      exact hsucc s
    · simp only [aggregate_results, hS, if_false]
      intro h
      rcases (hdata (results.filter (fun r => r.2.success))).1 h with ⟨lr, hlr⟩
      exact ⟨lr, mem_success_filter.mp (lookup_mem hlr)⟩
    · simp only [aggregate_results, hS, if_false]
      intro h
      rcases (hdata (results.filter (fun r => r.2.success))).2 h with ⟨fr, hfr⟩
      exact ⟨fr, mem_success_filter.mp (lookup_mem hfr)⟩

/-- Example source outcome: the land-registry call timed out. -/
def lrFailure : SourceResult :=
  ⟨false, some ("timeout"), none, none, none, none, none, none, none⟩

/-- Example source outcome: the flood-risk lookup succeeded. -/
def floodSuccess : SourceResult :=
  ⟨true, none, none, none, none, some ("Low"), some 2, some 0, none⟩

/-- Example source outcome: a third source failed without an error message. -/
def otherFailure : SourceResult :=
  ⟨false, none, none, none, none, none, none, none, none⟩

/-- Example results dict: one surviving source among two failures. -/
def exampleResults : List (String × SourceResult) :=
  [(("land_registry"), lrFailure), (("flood_risk"), floodSuccess),
   (("scansan"), otherFailure)]

/--
C10 witness: with two of three sources failing, the aggregate still reports
overall success, and both failures are listed separately with their own
error records. -/
theorem C10_witness :
    (aggregate_results exampleResults ("1 Test St")).success = true ∧
    (("land_registry"), ("timeout")) ∈
      (aggregate_results exampleResults ("1 Test St")).failed_sources ∧
    (("scansan"), ("Unknown error")) ∈
      (aggregate_results exampleResults ("1 Test St")).failed_sources ∧
    (("flood_risk")) ∈
      (aggregate_results exampleResults ("1 Test St")).successful_sources := by
  refine ⟨?_, ?_, ?_, ?_⟩
  · exact (C10_aggregate_results_partial_success exampleResults ("1 Test St")).1.mpr
      ⟨(("flood_risk"), floodSuccess), by decide, by decide⟩
  · exact ((C10_aggregate_results_partial_success exampleResults
        ("1 Test St")).2.2.1 ("land_registry") ("timeout")).mpr
      ⟨lrFailure, by decide, by decide, by decide⟩
  · exact ((C10_aggregate_results_partial_success exampleResults
        ("1 Test St")).2.2.1 ("scansan") ("Unknown error")).mpr
      ⟨otherFailure, by decide, by decide, by decide⟩
  · exact ((C10_aggregate_results_partial_success exampleResults
        ("1 Test St")).2.2.2.1 ("flood_risk")).mpr
      ⟨floodSuccess, by decide, by decide⟩

/-! ### Training dispatch: parallel path with sequential fallback
Embedding of the ensemble-training step of
`UKPropertyResiliencePredictor.fit` (lines 753-761).  Both
`train_models_parallel` and `train_models_sequential` invoke the same three
training routines (`train_lightgbm_classifier`,
`train_random_forest_classifier`, `train_elasticnet_classifier`) on the same
arguments; each attempt is modelled by its outcome, an
`Except` value over an abstract type of fitted model bundles. -/

/-- The try/except dispatch in `fit`: when `parallel_training` is set, try
the parallel path; on any exception fall back to the sequential path (which
is not wrapped in a try, so its failure propagates).  When
`parallel_training` is not set, run the sequential path directly. -/
def fit_train_dispatch {μ : Type} (parallel_training : Bool)
    (parallel_fit sequential_fit : Except String μ) : Except String μ :=
  if parallel_training then
    match parallel_fit with
    | Except.ok m => Except.ok m
    | Except.error _ => sequential_fit
  else
    sequential_fit

/--
C8: confirmed.  If the parallel fitting of the three base learners fails for
any reason, `fit` falls back to the sequential fitting of the same three
learners rather than aborting; the dispatch produces an error only when the
sequential pass itself fails (so training is fatal only if both passes fail,
and a successful parallel pass is used as is).
-/
theorem C8_fit_parallel_fallback {μ : Type}
    (parallel_fit sequential_fit : Except String μ) :
    (∀ e m, parallel_fit = Except.error e → sequential_fit = Except.ok m →
      fit_train_dispatch true parallel_fit sequential_fit = Except.ok m) ∧
    (∀ b e, fit_train_dispatch b parallel_fit sequential_fit = Except.error e →
      sequential_fit = Except.error e) ∧
    (∀ m, parallel_fit = Except.ok m →
      fit_train_dispatch true parallel_fit sequential_fit = Except.ok m) := by
  refine ⟨?_, ?_, ?_⟩
  · intro e m hpar hseq
    simp [fit_train_dispatch, hpar, hseq]
  · intro b e hdisp
    cases b with
    | false => exact hdisp
    | true =>
      cases hpar : parallel_fit with
      | ok m =>
        rw [fit_train_dispatch.eq_def, if_pos rfl, hpar] at hdisp
        exact absurd hdisp (by simp)
      | error e2 =>
        rw [fit_train_dispatch.eq_def, if_pos rfl, hpar] at hdisp
        exact hdisp
  · intro m hpar
    simp [fit_train_dispatch, hpar]

/--
C8 witness: the fallback applied at a concrete failing parallel outcome and
succeeding sequential outcome over bundles modelled as naturals. -/
theorem C8_witness :
    fit_train_dispatch true (Except.error ("thread pool broke"))
      (Except.ok (3 : ℕ)) = Except.ok 3 ∧
    fit_train_dispatch true (Except.error ("thread pool broke"))
      (Except.error ("seq also broke") : Except String ℕ)
      = Except.error ("seq also broke") := by
  constructor
  · exact (C8_fit_parallel_fallback (Except.error ("thread pool broke"))
      (Except.ok (3 : ℕ))).1 ("thread pool broke") 3 rfl rfl
  · rfl

/-! ### The `/api/predict_resilience` handler against the implemented class
Embedding of `predict_resilience` from `backend/app.py` (lines 78-156)
together with the attribute table of the class the model module actually
implements.  Python attribute access on the global model object is modelled
by lookup in the class attribute list; a failed lookup is an
`AttributeError`, which the handler's `except` clause converts to the
generic 500 JSON `\x7b"success": false, "error": ...\x7d`. -/

/-- Attributes defined by `UKPropertyResiliencePredictor`: its methods plus
every instance field assigned in `__init__` (lines 52-90). -/
def resiliencePredictorAttrs : List String :=
  [("n_spatial_neighbors"), ("quantiles"), ("ensemble_weights"),
   ("use_stacking"), ("parallel_training"),
   ("lgb_classifier"), ("rf_classifier"), ("en_classifier"),
   ("meta_classifier"), ("quantile_models"), ("label_encoder"),
   ("feature_scaler"), ("spatial_tree"), ("postcode_coords"),
   ("postcode_sectors"), ("postcode_to_coords"), ("feature_names"),
   ("feature_importances"), ("model_weights"),
   ("extract_postcode_sector"), ("parse_date"),
   ("preprocess_land_registry_data"), ("aggregate_price_history"),
   ("build_spatial_index"), ("calculate_spatial_lag_features"),
   ("_get_default_spatial_lag_features"), ("construct_resilience_labels"),
   ("train_lightgbm_classifier"), ("train_random_forest_classifier"),
   ("train_elasticnet_classifier"), ("train_models_parallel"),
   ("train_models_sequential"), ("train_quantile_regressors"),
   ("_get_base_predictions"), ("train_meta_classifier"),
   ("optimize_weights"), ("predict_ensemble"),
   ("predict_quantile_ensemble"), ("fit"), ("predict"),
   ("get_feature_importance")]

/-- Top-level names bound in `uk_property_resilience_model_optimized.py`:
the imports (lines 18-29) and the module-level definitions. -/
def modelModuleNames : List String :=
  [("np"), ("pd"), ("train_test_split"), ("cross_val_score"),
   ("StandardScaler"), ("LabelEncoder"), ("classification_report"),
   ("roc_auc_score"), ("mean_absolute_error"), ("mean_squared_error"),
   ("LogisticRegression"), ("ElasticNet"), ("RandomForestClassifier"),
   ("RandomForestRegressor"), ("HistGradientBoostingClassifier"),
   ("HistGradientBoostingRegressor"), ("KDTree"), ("datetime"),
   ("ThreadPoolExecutor"), ("as_completed"), ("warnings"),
   ("UKPropertyResiliencePredictor"), ("main")]

/-- Parameter list of `UKPropertyResiliencePredictor.predict` (line 806). -/
def resiliencePredictParams : List String := [("self"), ("X"), ("mode")]

/-- Possible responses from the `/api/predict_resilience` handler. -/
inductive HandlerResponse where
  /-- 503 `\x7b"success": false, "error": "Model not loaded"\x7d`. -/
  | serviceUnavailable
  /-- 400 `\x7b"success": false, "error": "Postcode is required"\x7d`. -/
  | badRequest
  /-- 500 `\x7b"success": false, "error": str(e)\x7d` from the except clause. -/
  | internalError
  /-- 200 success JSON carrying a forecast. -/
  | okForecast
deriving DecidableEq

/-- The `predict_resilience` handler, parametric in the attribute table of
the loaded model object, in the outcome of the scraper call (`true` when
`search_property_multi_source` raises) and in a continuation `rest`: the
response the remaining, unmodelled tail of the try block would produce after
the modelled prefix (the tail is unreachable when the loaded class lacks
`get_sector_stats`, which is the point of the claim). -/
def predict_resilience_handler (modelLoaded : Bool) (modelAttrs : List String)
    (postcode : Option String) (scraperRaises : Bool)
    (rest : HandlerResponse) : HandlerResponse :=
  if modelLoaded then
    match postcode with
    | none => HandlerResponse.badRequest
    | some p =>
      if p = ("") then HandlerResponse.badRequest
      else
        if scraperRaises then HandlerResponse.internalError
        else if ("extract_postcode_sector") ∈ modelAttrs then
          if ("get_sector_stats") ∈ modelAttrs then rest
          else HandlerResponse.internalError
        else HandlerResponse.internalError
  else HandlerResponse.serviceUnavailable

/--
C2: corrected.  While the loaded model is an instance of
`UKPropertyResiliencePredictor`, every POST to `/api/predict_resilience`
that supplies a non-empty postcode makes the try block raise — the class
defines no `get_sector_stats` attribute — so the response is the generic 500
error JSON whatever the scraper outcome and whatever the unreachable tail of
the handler would do; a forecast is never returned.  The class also lacks
`default_stats`, its `predict` takes `(X, mode)` rather than
`(current_price, feature_row)`, and `UKPropertyFuturePricePredictor` is not
among the names the model module defines.  (A POST without a postcode is
answered 400, not 500 — the one correction to the claim.)
-/
theorem C2_handler_always_500 :
    (∀ (p : String), p ≠ ("") → ∀ (scraperRaises : Bool) (rest : HandlerResponse),
      predict_resilience_handler true resiliencePredictorAttrs (some p)
        scraperRaises rest = HandlerResponse.internalError) ∧
    ("get_sector_stats") ∉ resiliencePredictorAttrs ∧
    ("default_stats") ∉ resiliencePredictorAttrs ∧
    ("UKPropertyFuturePricePredictor") ∉ modelModuleNames ∧
    ("predict") ∈ resiliencePredictorAttrs ∧
    resiliencePredictParams ≠
      [("self"), ("current_price"), ("feature_row")] := by
  refine ⟨?_, by decide, by decide, by decide, by decide, by decide⟩
  intro p hp scraperRaises rest
  rw [predict_resilience_handler, if_pos rfl]
  rw [if_neg hp]
  cases scraperRaises with
  | true => rfl
  | false =>
    rw [if_neg (by simp)]
    rw [if_pos (by decide)]
    rw [if_neg (by decide)]

/--
C2 witness: the 500 outcome at the concrete postcode `"SW7 3PH"`, with the
scraper succeeding and a hypothetical successful tail. -/
theorem C2_witness :
    predict_resilience_handler true resiliencePredictorAttrs (some ("SW7 3PH"))
      false HandlerResponse.okForecast = HandlerResponse.internalError ∧
    ("get_sector_stats") ∉ resiliencePredictorAttrs := by
  exact ⟨C2_handler_always_500.1 ("SW7 3PH") (by decide) false
    HandlerResponse.okForecast, C2_handler_always_500.2.1⟩

/--
C2 counterexample: a POST that supplies no postcode is answered with the 400
bad-request JSON, not the generic 500 error JSON the claim asserts for every
POST request. -/
theorem C2_counterexample :
    predict_resilience_handler true resiliencePredictorAttrs none false
      HandlerResponse.okForecast = HandlerResponse.badRequest ∧
    HandlerResponse.badRequest ≠ HandlerResponse.internalError := by
  decide

/-! ### Risk overlay and predictor facade
The class `UKPropertyFuturePricePredictor` that `backend/app.py` imports and
calls (`predict(current_price, feature_row)`) is not present under `src/`;
only its caller is.  Its predict operation is therefore modelled from the
spec (section 4.5). -/

/-- Python's builtin `round` to an integer: round half to even. -/
def pythonRound (q : ℚ) : ℤ :=
  let f := ⌊q⌋
  let r := q - f
  if r < 1/2 then f
  else if 1/2 < r then f + 1
  else if f % 2 = 0 then f else f + 1

/-- One horizon's entry of the forecast output. -/
structure HorizonForecast where
  growth_pct : ℚ
  price_value : ℤ
  risk_penalty_pct : ℚ
deriving DecidableEq

/-- Modelled from the spec: the deterministic hazard penalty of the missing
`UKPropertyFuturePricePredictor.predict` — "penalty `= (flood/10·0.015 +
crime/10·0.010) · h`", linear and per-horizon-scaled. -/
def risk_penalty (flood crime : ℚ) (h : ℕ) : ℚ :=
  (flood / 10 * (15 / 1000) + crime / 10 * (10 / 1000)) * h

/-- Modelled from the spec: `UKPropertyFuturePricePredictor.predict
(current_price, feature_row)`, missing from `src/`.  For each horizon h in
1/3/5, `base_growth = model_h(scale(feature_row))` (the fitted per-horizon
model is abstracted as the function `base_growth`), `adjusted_growth =
base_growth − penalty`, `price_value = round(current_price ·
(1+adjusted_growth))`; output per horizon is a
growth_pct/price_value/risk_penalty_pct record. -/
def predict_future_prices (current_price flood crime : ℚ)
    (base_growth : ℕ → ℚ) : List (ℕ × HorizonForecast) :=
  [1, 3, 5].map fun h =>
    let adjusted := base_growth h - risk_penalty flood crime h
    (h, { growth_pct := adjusted * 100,
          price_value := pythonRound (current_price * (1 + adjusted)),
          risk_penalty_pct := risk_penalty flood crime h * 100 })

/--
C1: confirmed against the spec-modelled predictor.  For flood, crime ≥ 0 the
forecast holds, for each horizon h ∈ 1/3/5, exactly the penalty
`(flood/10·0.015 + crime/10·0.010)·h`, the adjusted growth
`base_growth_h − penalty_h`, and the rounded
`price_value = round(current_price·(1+adjusted_growth))`; the penalty is
linear in the horizon (h times the one-year penalty, not compounded),
non-negative, and non-decreasing in horizon length.
-/
theorem C1_predict_risk_overlay (current_price flood crime : ℚ)
    (base_growth : ℕ → ℚ) (hf : 0 ≤ flood) (hc : 0 ≤ crime) :
    (∀ (h : ℕ) (fc : HorizonForecast),
      (h, fc) ∈ predict_future_prices current_price flood crime base_growth →
        h ∈ ([1, 3, 5] : List ℕ) ∧
        fc.risk_penalty_pct =
          (flood / 10 * (15 / 1000) + crime / 10 * (10 / 1000)) * h * 100 ∧
        fc.growth_pct =
          (base_growth h -
            (flood / 10 * (15 / 1000) + crime / 10 * (10 / 1000)) * h) * 100 ∧
        fc.price_value = pythonRound (current_price * (1 + base_growth h -
          (flood / 10 * (15 / 1000) + crime / 10 * (10 / 1000)) * h))) ∧
    (∀ h : ℕ, risk_penalty flood crime h = h * risk_penalty flood crime 1) ∧
    (∀ h : ℕ, 0 ≤ risk_penalty flood crime h) ∧
    (∀ h h2 : ℕ, h ≤ h2 →
      risk_penalty flood crime h ≤ risk_penalty flood crime h2) := by
  have hbase : 0 ≤ flood / 10 * (15 / 1000) + crime / 10 * (10 / 1000) := by
    have h1 : 0 ≤ flood / 10 * (15 / 1000) := by positivity
    have h2 : 0 ≤ crime / 10 * (10 / 1000) := by positivity
    linarith
  refine ⟨?_, ?_, ?_, ?_⟩
  · intro h fc hmem
    simp only [predict_future_prices, List.mem_map, List.mem_cons,
      List.mem_singleton, List.not_mem_nil] at hmem
    rcases hmem with ⟨h0, hh0, heq⟩
    rw [Prod.mk.injEq] at heq
    obtain ⟨rfl, rfl⟩ := heq
    refine ⟨by simpa using hh0, rfl, ?_, ?_⟩
    · simp [risk_penalty]
    · simp only [risk_penalty]
      ring_nf
  · intro h
    simp [risk_penalty]
    ring
  · intro h
    have : (0:ℚ) ≤ (h : ℚ) := Nat.cast_nonneg h
    simp only [risk_penalty]
    positivity
  · intro h h2 hle
    simp only [risk_penalty]
    have : (h : ℚ) ≤ (h2 : ℚ) := by exact_mod_cast hle
    exact mul_le_mul_of_nonneg_left this hbase

lemma pythonRound_intCast (n : ℤ) : pythonRound ((n : ℤ) : ℚ) = n := by
  simp only [pythonRound, Int.floor_intCast, sub_self]
  norm_num

/--
C1 witness: the forecast at price 500000, flood 5, crime 2 and constant base
growth 5 percent: the 3-year penalty is 0.0285 (three times the 1-year
penalty) and the 3-year price value is round(500000·1.0215) = 510750. -/
theorem C1_witness :
    (((3:ℕ), (⟨(1/20 - risk_penalty 5 2 3) * 100,
        pythonRound (500000 * (1 + (1/20 - risk_penalty 5 2 3))),
        risk_penalty 5 2 3 * 100⟩ : HorizonForecast)) ∈
      predict_future_prices 500000 5 2 (fun _ => 1/20)) ∧
    risk_penalty 5 2 3 = 57/2000 ∧
    pythonRound (500000 * (1 + (1/20 - risk_penalty 5 2 3))) = 510750 ∧
    risk_penalty 5 2 3 = 3 * risk_penalty 5 2 1 ∧
    ((1/20 : ℚ) - risk_penalty 5 2 3) * 100 =
      (1/20 - (5 / 10 * (15 / 1000) + 2 / 10 * (10 / 1000)) * 3) * 100 := by
  have hmem : (((3:ℕ), (⟨(1/20 - risk_penalty 5 2 3) * 100,
      pythonRound (500000 * (1 + (1/20 - risk_penalty 5 2 3))),
      risk_penalty 5 2 3 * 100⟩ : HorizonForecast)) ∈
      predict_future_prices 500000 5 2 (fun _ => 1/20)) :=
    List.mem_map.mpr ⟨3, by decide, rfl⟩
  have harg : (500000 : ℚ) * (1 + (1/20 - risk_penalty 5 2 3)) =
      ((510750 : ℤ) : ℚ) := by
    norm_num [risk_penalty]
  have hmain := (C1_predict_risk_overlay 500000 5 2 (fun _ => 1/20)
    (by norm_num) (by norm_num)).1 3 _ hmem
  refine ⟨hmem, by norm_num [risk_penalty], ?_, ?_, ?_⟩
  · rw [harg, pythonRound_intCast]
  · exact (C1_predict_risk_overlay 500000 5 2 (fun _ => 1/20)
      (by norm_num) (by norm_num)).2.1 3
  · have := hmain.2.2.1
    simpa using this

/-! ### Rational statistics mirroring pandas / numpy
Helpers used by the embeddings of `aggregate_price_history`,
`construct_resilience_labels` and `calculate_spatial_lag_features`. -/

/-- Maximum of a series (`.max()`); the empty case (NaN in pandas) is
unreachable at every use site and mapped to `default`. -/
def pandasMax {α : Type} [LinearOrder α] [Inhabited α] : List α → α
  | [] => default
  | x :: xs => xs.foldl max x

/-- Minimum of a series (`.min()`); empty case as in `pandasMax`. -/
def pandasMin {α : Type} [LinearOrder α] [Inhabited α] : List α → α
  | [] => default
  | x :: xs => xs.foldl min x

/-- Mean of a series (`.mean()`); division by zero on an empty series
stands in for pandas NaN. -/
def listMean (xs : List ℚ) : ℚ :=
  xs.sum / xs.length

/-- Median of a series (`.median()`): sort, take the middle element, or the
mean of the two middle elements when the length is even. -/
def pandasMedian (xs : List ℚ) : ℚ :=
  let s := List.insertionSort (fun a b => a ≤ b) xs
  let n := s.length
  if n = 0 then 0
  else if n % 2 = 1 then s.getD (n / 2) 0
  else (s.getD (n / 2 - 1) 0 + s.getD (n / 2) 0) / 2

/-- Sample variance with ddof = 1: the square of `pandas.Series.std()`.
The embedding carries the variance because the standard deviation itself is
an irrational square root; `n ≤ 1` (pandas NaN) is division by zero. -/
def sampleVar (xs : List ℚ) : ℚ :=
  (xs.map (fun x => (x - listMean xs) ^ 2)).sum / (xs.length - 1 : ℚ)

/-- Population variance with ddof = 0: the square of `numpy.std()`. -/
def popVar (xs : List ℚ) : ℚ :=
  (xs.map (fun x => (x - listMean xs) ^ 2)).sum / (xs.length : ℚ)

/-- Linear-interpolation quantile, as `pandas.Series.quantile(q)` computes
it: on the ascending sort, position `q·(n−1)`, interpolating linearly
between the two adjacent order statistics. -/
def quantileLinear (xs : List ℚ) (q : ℚ) : ℚ :=
  let s := List.insertionSort (fun a b => a ≤ b) xs
  let n := s.length
  if n = 0 then 0
  else
    let pos := q * ((n : ℚ) - 1)
    let i := (⌊pos⌋).toNat
    let g := pos - ⌊pos⌋
    let a := s.getD i 0
    let b := s.getD (i + 1) a
    a + g * (b - a)

/-- Clipping to the unit interval (`.clip(0, 1)`). -/
def clip01 (x : ℚ) : ℚ := max 0 (min 1 x)

/-! ### Resilience label construction
Embedding of `construct_resilience_labels` (lines 317-345).  The function
reads only the columns `max_drawdown`, `price_volatility` and
`price_growth_1yr` of the sector-statistics table, so its input row type
carries exactly those; the volatility column enters only through the ratio
to its maximum, so it is carried unsquared. -/

/-- A row of the sector-statistics table as `construct_resilience_labels`
reads it. -/
structure SectorHistoryStats where
  max_drawdown : ℚ
  price_volatility : ℚ
  price_growth_1yr : ℚ
deriving DecidableEq

/-- The string labels `'Low'` / `'Medium'` / `'High'`. -/
inductive ResLabel where
  | Low
  | Medium
  | High
deriving DecidableEq

/-- An output row: the input row with its `resilience_score` and
`resilience_label` columns attached. -/
structure LabeledSectorStats where
  stats : SectorHistoryStats
  resilience_score : ℚ
  resilience_label : ResLabel
deriving DecidableEq

/-- The composite score of one row: `0.4·max_drawdown_norm +
0.3·volatility_norm + 0.3·growth_norm`, clipped to [0,1], with the
normalizations of lines 322-325 (`1e-8` guards the two divisors). -/
def resilience_score_of (rows : List SectorHistoryStats)
    (r : SectorHistoryStats) : ℚ :=
  let maxVol := pandasMax (rows.map (fun x => x.price_volatility))
  let minG := pandasMin (rows.map (fun x => x.price_growth_1yr))
  let maxG := pandasMax (rows.map (fun x => x.price_growth_1yr))
  clip01 ((4/10) * (1 - r.max_drawdown / 100)
    + (3/10) * (1 - r.price_volatility / (maxVol + 1/100000000))
    + (3/10) * ((r.price_growth_1yr - minG) / (maxG - minG + 1/100000000)))

/-- One output row of `construct_resilience_labels`: score plus the tertile
label from the 33rd/67th percentile cut points `t0 ≤ t1` of the score
distribution. -/
def labelRow (rows : List SectorHistoryStats) (t0 t1 : ℚ)
    (r : SectorHistoryStats) : LabeledSectorStats :=
  let x := resilience_score_of rows r
  { stats := r, resilience_score := x,
    resilience_label :=
      if x ≤ t0 then ResLabel.Low
      else if x ≤ t1 then ResLabel.Medium
      else ResLabel.High }

/-- `construct_resilience_labels`: attach the composite score and the
tertile label (`quantile([0.33, 0.67])` cut points) to every row. -/
def construct_resilience_labels (rows : List SectorHistoryStats) :
    List LabeledSectorStats :=
  let scores := rows.map (resilience_score_of rows)
  let t0 := quantileLinear scores (33/100)
  let t1 := quantileLinear scores (67/100)
  rows.map (labelRow rows t0 t1)

lemma construct_scores_eq (rows : List SectorHistoryStats) :
    (construct_resilience_labels rows).map (fun x => x.resilience_score) =
      rows.map (resilience_score_of rows) := by
  simp [construct_resilience_labels, labelRow]

/--
C6: confirmed.  Every output row of `construct_resilience_labels` carries
`resilience_score = clip([0,1], 0.4·(1−drawdown/100) +
0.3·(1−volatility/(max volatility+1e-8)) + 0.3·((growth−min growth)/(max
growth−min growth+1e-8)))`, lying in [0,1]; and with `t0`, `t1` the
33rd/67th-percentile cut points of the score distribution, the label is
`Low` iff score ≤ t0, `Medium` iff t0 < score ≤ t1, and `High` iff t1 <
score.
-/
theorem C6_construct_resilience_labels (rows : List SectorHistoryStats)
    (lr : LabeledSectorStats) (hlr : lr ∈ construct_resilience_labels rows) :
    (lr.resilience_score = clip01 (
      (4/10) * (1 - lr.stats.max_drawdown / 100)
      + (3/10) * (1 - lr.stats.price_volatility /
          (pandasMax (rows.map (fun x => x.price_volatility)) + 1/100000000))
      + (3/10) * ((lr.stats.price_growth_1yr -
            pandasMin (rows.map (fun x => x.price_growth_1yr))) /
          (pandasMax (rows.map (fun x => x.price_growth_1yr)) -
            pandasMin (rows.map (fun x => x.price_growth_1yr)) +
            1/100000000)))) ∧
    0 ≤ lr.resilience_score ∧ lr.resilience_score ≤ 1 ∧
    (lr.resilience_label = ResLabel.Low ↔ lr.resilience_score ≤
      quantileLinear ((construct_resilience_labels rows).map
        (fun x => x.resilience_score)) (33/100)) ∧
    (lr.resilience_label = ResLabel.Medium ↔
      (quantileLinear ((construct_resilience_labels rows).map
        (fun x => x.resilience_score)) (33/100) < lr.resilience_score ∧
       lr.resilience_score ≤ quantileLinear
        ((construct_resilience_labels rows).map
          (fun x => x.resilience_score)) (67/100))) ∧
    (lr.resilience_label = ResLabel.High ↔
      (quantileLinear ((construct_resilience_labels rows).map
        (fun x => x.resilience_score)) (33/100) < lr.resilience_score ∧
       quantileLinear ((construct_resilience_labels rows).map
        (fun x => x.resilience_score)) (67/100) < lr.resilience_score)) := by
  rw [construct_scores_eq]
  rcases List.mem_map.mp hlr with ⟨r, hr, rfl⟩
  set t0 := quantileLinear (rows.map (resilience_score_of rows)) (33/100) with ht0
  set t1 := quantileLinear (rows.map (resilience_score_of rows)) (67/100) with ht1
  set x := resilience_score_of rows r with hx
  have hscore : (labelRow rows t0 t1 r).resilience_score = x := rfl
  have hstats : (labelRow rows t0 t1 r).stats = r := rfl
  refine ⟨?_, ?_, ?_, ?_, ?_, ?_⟩
  · rw [hscore, hstats, hx, resilience_score_of]
  · rw [hscore, hx, resilience_score_of]
    exact le_max_left 0 _
  · rw [hscore, hx, resilience_score_of]
    exact max_le (by norm_num) (min_le_left 1 _)
  · rw [hscore]
    show (if x ≤ t0 then ResLabel.Low
      else if x ≤ t1 then ResLabel.Medium else ResLabel.High) = ResLabel.Low ↔
        x ≤ t0
    split_ifs with h1 h2
    · simp [h1]
    · simp [h1]
    · simp [h1]
  · rw [hscore]
    show (if x ≤ t0 then ResLabel.Low
      else if x ≤ t1 then ResLabel.Medium else ResLabel.High) = ResLabel.Medium ↔
        (t0 < x ∧ x ≤ t1)
    split_ifs with h1 h2
    · simp [h1, lt_iff_not_le]
    · simp [h1, h2, lt_iff_not_le]
    · simp [h2]
  · rw [hscore]
    show (if x ≤ t0 then ResLabel.Low
      else if x ≤ t1 then ResLabel.Medium else ResLabel.High) = ResLabel.High ↔
        (t0 < x ∧ t1 < x)
    split_ifs with h1 h2
    · constructor
      · intro h
        exact absurd h (by simp)
      · rintro ⟨hlt, _⟩
        exact absurd h1 (not_le.mpr hlt)
    · constructor
      · intro h
        exact absurd h (by simp)
      · rintro ⟨_, hlt⟩
        exact absurd h2 (not_le.mpr hlt)
    · exact ⟨fun _ => ⟨not_le.mp h1, not_le.mp h2⟩, fun _ => rfl⟩

/-- Example stats table: three identical sector rows. -/
def rows6 : List SectorHistoryStats :=
  [⟨50, 10, 5⟩, ⟨50, 10, 5⟩, ⟨50, 10, 5⟩]

/-- The first output row of `construct_resilience_labels rows6`. -/
def c6row : LabeledSectorStats :=
  labelRow rows6
    (quantileLinear (rows6.map (resilience_score_of rows6)) (33/100))
    (quantileLinear (rows6.map (resilience_score_of rows6)) (67/100))
    ⟨50, 10, 5⟩

/--
C6 witness: the characterization applied to the concrete three-row table
`rows6`; the first output row's score obeys the clipped composite formula
and lies in [0,1]. -/
theorem C6_witness :
    c6row ∈ construct_resilience_labels rows6 ∧
    0 ≤ c6row.resilience_score ∧ c6row.resilience_score ≤ 1 := by
  have hmem : c6row ∈ construct_resilience_labels rows6 :=
    List.mem_map.mpr ⟨⟨50, 10, 5⟩, List.mem_cons_self _ _, rfl⟩
  have h := C6_construct_resilience_labels rows6 c6row hmem
  exact ⟨hmem, h.2.1, h.2.2.1⟩

/-! ### Sector price-history aggregation
Embedding of `aggregate_price_history` (lines 165-229) over the
preprocessed transaction table.  A transaction row carries the columns the
aggregator touches: `price`, `date_parsed` (as a day count), the derived
`year` column built by `preprocess_land_registry_data`, the
`postcode_sector` column (`None` models NaN), and the enrichment columns
`flood_risk_score` / `crime_rate` (present in the dataframe; the code's
aggregator never reads them). -/

/-- A preprocessed transaction row. -/
structure Transaction where
  price : ℚ
  date_parsed : ℤ
  year : ℤ
  postcode_sector : Option PyStr
  flood_risk_score : ℚ
  crime_rate : ℚ
deriving DecidableEq

/-- Helper for `uniqueKeys`: first-occurrence de-duplication with a seen
accumulator (structural recursion). -/
def uniqueKeysAux {α : Type} [DecidableEq α] : List α → List α → List α
  | [], _ => []
  | x :: xs, seen =>
    if x ∈ seen then uniqueKeysAux xs seen
    else x :: uniqueKeysAux xs (x :: seen)

/-- `pandas.Series.unique()`: distinct values in order of first
appearance. -/
def uniqueKeys {α : Type} [DecidableEq α] (l : List α) : List α :=
  uniqueKeysAux l []

/-- `Series.pct_change()` on a price series, with the leading NaN entry
dropped (as `pandas.Series.std` skips it). -/
def pctChanges : List ℚ → List ℚ
  | [] => []
  | [_] => []
  | a :: b :: rest => (b / a - 1) :: pctChanges (b :: rest)

/-- One row of the sector-statistics dataframe `aggregate_price_history`
returns.  `price_var`, `price_cv_sq` and `price_volatility_sq` carry the
squares of the source's `price_std`, `price_cv` and `price_volatility`
(which are square roots, irrational over ℚ). -/
structure SectorStats where
  postcode_sector : PyStr
  n_transactions : ℕ
  n_recent_transactions : ℕ
  median_price : ℚ
  mean_price : ℚ
  recent_median_price : ℚ
  price_var : ℚ
  price_cv_sq : ℚ
  price_growth_1yr : ℚ
  price_volatility_sq : ℚ
  max_drawdown : ℚ
deriving DecidableEq

/-- `aggregate_price_history(transactions_df, min_transactions=10)`: one
row per distinct non-null sector with at least `min_transactions`
transactions in its whole history; statistics are over the sector's full,
date-sorted history; the 12-month cutoff `max(date) − 365 days` drives the
recent-transaction fields, and the growth/volatility block runs only when
the sector has at least 24 transactions. -/
def aggregate_price_history (txs : List Transaction)
    (min_transactions : ℕ := 10) : List SectorStats :=
  (uniqueKeys (txs.filterMap (fun t => t.postcode_sector))).filterMap
    (fun sector =>
      let sector_data := List.insertionSort
        (fun a b => a.date_parsed ≤ b.date_parsed)
        (txs.filter (fun t => t.postcode_sector = some sector))
      if sector_data.length < min_transactions then none
      else
        let prices := sector_data.map (fun t => t.price)
        let maxDate := pandasMax (sector_data.map (fun t => t.date_parsed))
        let cutoff := maxDate - 365
        let recent := sector_data.filter (fun t => cutoff ≤ t.date_parsed)
        let recentPrices := recent.map (fun t => t.price)
        let growthVol :=
          if 24 ≤ sector_data.length then
            let old_prices := (sector_data.filter
              (fun t => t.date_parsed ≤ cutoff)).map (fun t => t.price)
            let new_prices := (sector_data.filter
              (fun t => cutoff < t.date_parsed)).map (fun t => t.price)
            ((if 0 < old_prices.length ∧ 0 < new_prices.length then
                (pandasMedian new_prices / pandasMedian old_prices - 1) * 100
              else 0),
             10000 * sampleVar (pctChanges prices))
          else ((0 : ℚ), (0 : ℚ))
        some {
          postcode_sector := sector,
          n_transactions := sector_data.length,
          n_recent_transactions := recent.length,
          median_price := pandasMedian prices,
          mean_price := listMean prices,
          recent_median_price :=
            if 0 < recent.length then pandasMedian recentPrices
            else pandasMedian prices,
          price_var := sampleVar prices,
          price_cv_sq :=
            if 0 < listMean prices then sampleVar prices / (listMean prices) ^ 2
            else 0,
          price_growth_1yr := growthVol.1,
          price_volatility_sq := growthVol.2,
          max_drawdown :=
            if 0 < pandasMax prices then
              (1 - pandasMin prices / pandasMax prices) * 100
            else 0 })

/-- A sector-year sample of the aggregator the claim describes. -/
structure SpecBucket where
  sector : PyStr
  year : ℤ
  price_median : ℚ
  price_var_pop : ℚ
  tx_count : ℕ
  flood_risk : ℚ
  crime_rate : ℚ
deriving DecidableEq

/-- The aggregator as the claim states it (this definition follows the
claim's words, for comparison with `aggregate_price_history`): group by
`(sector, year)`, take median / population standard deviation (carried
squared, as `price_var_pop`) / count of price, max of flood score, mean of
crime rate, keep only buckets with at least 3 transactions and year ≥
2000. -/
def claimAggregate (txs : List Transaction) : List SpecBucket :=
  (uniqueKeys (txs.filterMap (fun t => t.postcode_sector))).flatMap
    (fun sector =>
      let sector_data := txs.filter (fun t => t.postcode_sector = some sector)
      (uniqueKeys (sector_data.map (fun t => t.year))).filterMap
        (fun y =>
          let bucket := sector_data.filter (fun t => t.year = y)
          if bucket.length < 3 ∨ y < 2000 then none
          else some {
            sector := sector, year := y,
            price_median := pandasMedian (bucket.map (fun t => t.price)),
            price_var_pop := popVar (bucket.map (fun t => t.price)),
            tx_count := bucket.length,
            flood_risk := pandasMax (bucket.map (fun t => t.flood_risk_score)),
            crime_rate := listMean (bucket.map (fun t => t.crime_rate)) }))

lemma filterMap_map_key {α β : Type} (f : α → Option β) (key : β → α)
    (p : α → Bool)
    (hf : ∀ a : α, (∀ b, f a = some b → key b = a ∧ p a = true) ∧
      (f a = none → p a = false)) :
    ∀ l : List α, (l.filterMap f).map key = l.filter p := by
  intro l
  induction l with
  | nil => rfl
  | cons x xs ih =>
    rcases hfx : f x with _ | b
    · rw [List.filterMap_cons_none hfx, List.filter_cons_of_neg, ih]
      simp [(hf x).2 hfx]
    · rcases (hf x).1 b hfx with ⟨hkey, hp⟩
      rw [List.filterMap_cons_some hfx, List.map_cons,
        List.filter_cons_of_pos, ih, hkey]
      exact hp

lemma insertionSortQ_eq_of_perm (xs ys : List ℚ) (h : xs.Perm ys) :
    List.insertionSort (fun a b => a ≤ b) xs =
      List.insertionSort (fun a b => a ≤ b) ys := by
  have hs1 := List.sorted_insertionSort (fun a b : ℚ => a ≤ b) xs
  have hs2 := List.sorted_insertionSort (fun a b : ℚ => a ≤ b) ys
  have hp := (List.perm_insertionSort (fun a b : ℚ => a ≤ b) xs).trans
    (h.trans (List.perm_insertionSort (fun a b : ℚ => a ≤ b) ys).symm)
  exact List.eq_of_perm_of_sorted hp hs1 hs2

lemma pandasMedian_perm (xs ys : List ℚ) (h : xs.Perm ys) :
    pandasMedian xs = pandasMedian ys := by
  unfold pandasMedian
  rw [insertionSortQ_eq_of_perm xs ys h]

/--
C4: corrected.  `aggregate_price_history` groups by sector alone, not by
`(sector, year)`: its output rows are keyed by the sector, one row per
distinct sector whose whole-history transaction count reaches
`min_transactions` (default 10, not 3), with the row's count and median
taken over the sector's complete history regardless of year — there is no
per-year bucketing, no flood/crime aggregation, and no exclusion of years
before 2000.
-/
theorem C4_aggregate_by_sector_only (txs : List Transaction)
    (min_transactions : ℕ) :
    ((aggregate_price_history txs min_transactions).map
        (fun row => row.postcode_sector) =
      (uniqueKeys (txs.filterMap (fun t => t.postcode_sector))).filter
        (fun s => decide (min_transactions ≤
          (txs.filter (fun t => t.postcode_sector = some s)).length))) ∧
    (∀ row ∈ aggregate_price_history txs min_transactions,
      min_transactions ≤ row.n_transactions ∧
      row.n_transactions =
        (txs.filter (fun t => t.postcode_sector =
          some row.postcode_sector)).length ∧
      row.median_price = pandasMedian
        ((txs.filter (fun t => t.postcode_sector =
          some row.postcode_sector)).map (fun t => t.price))) := by
  constructor
  · apply filterMap_map_key
    intro s
    constructor
    · intro b hb
      by_cases hlen : (List.insertionSort
          (fun a b => a.date_parsed ≤ b.date_parsed)
          (txs.filter (fun t => t.postcode_sector = some s))).length <
            min_transactions
      · simp only [hlen, if_true] at hb
        exact Option.noConfusion hb
      · simp only [hlen, if_false] at hb
        refine ⟨?_, ?_⟩
        · injection hb with hb2
          rw [← hb2]
        · rw [List.length_insertionSort] at hlen
          simpa using Nat.le_of_not_lt hlen
    · intro hnone
      by_cases hlen : (List.insertionSort
          (fun a b => a.date_parsed ≤ b.date_parsed)
          (txs.filter (fun t => t.postcode_sector = some s))).length <
            min_transactions
      · rw [List.length_insertionSort] at hlen
        simpa using Nat.not_le_of_lt hlen
      · simp only [hlen, if_false] at hnone
        exact Option.noConfusion hnone
  · intro row hrow
    rcases List.mem_filterMap.mp hrow with ⟨s, hs, hfs⟩
    by_cases hlen : (List.insertionSort
        (fun a b => a.date_parsed ≤ b.date_parsed)
        (txs.filter (fun t => t.postcode_sector = some s))).length <
          min_transactions
    · simp only [hlen, if_true] at hfs
      exact Option.noConfusion hfs
    · simp only [hlen, if_false] at hfs
      injection hfs with hfs2
      rw [← hfs2]
      refine ⟨?_, ?_, ?_⟩
      · show min_transactions ≤ (List.insertionSort
          (fun a b => a.date_parsed ≤ b.date_parsed)
          (txs.filter (fun t => t.postcode_sector = some s))).length
        rw [List.length_insertionSort] at hlen ⊢
        exact Nat.le_of_not_lt hlen
      · show (List.insertionSort
          (fun a b => a.date_parsed ≤ b.date_parsed)
          (txs.filter (fun t => t.postcode_sector = some s))).length =
            (txs.filter (fun t => t.postcode_sector = some s)).length
        exact List.length_insertionSort _ _
      · show pandasMedian ((List.insertionSort
            (fun a b => a.date_parsed ≤ b.date_parsed)
            (txs.filter (fun t => t.postcode_sector = some s))).map
              (fun t => t.price)) =
          pandasMedian ((txs.filter
            (fun t => t.postcode_sector = some s)).map (fun t => t.price))
        exact pandasMedian_perm _ _
          ((List.perm_insertionSort
              (fun a b : Transaction => a.date_parsed ≤ b.date_parsed)
              (txs.filter (fun t => t.postcode_sector = some s))).map
            (fun t : Transaction => t.price))

/-- The sector key `"SW7 3"`. -/
def swSector : PyStr := ['S', 'W', '7', ' ', '3']

/-- Three transactions in sector `"SW7 3"`, all in year 2020: a bucket the
claim's aggregator keeps (count 3 ≥ 3, year ≥ 2000). -/
def txs4 : List Transaction :=
  [⟨100000, 18300, 2020, some swSector, 1, 4⟩,
   ⟨200000, 18350, 2020, some swSector, 2, 5⟩,
   ⟨300000, 18400, 2020, some swSector, 3, 6⟩]

/-- Ten transactions in sector `"SW7 3"`, all in year 1995: pre-2000 data
the claim's aggregator would exclude. -/
def txs1995 : List Transaction :=
  [⟨100000, 9000, 1995, some swSector, 0, 0⟩,
   ⟨105000, 9010, 1995, some swSector, 0, 0⟩,
   ⟨110000, 9020, 1995, some swSector, 0, 0⟩,
   ⟨115000, 9030, 1995, some swSector, 0, 0⟩,
   ⟨120000, 9040, 1995, some swSector, 0, 0⟩,
   ⟨125000, 9050, 1995, some swSector, 0, 0⟩,
   ⟨130000, 9060, 1995, some swSector, 0, 0⟩,
   ⟨135000, 9070, 1995, some swSector, 0, 0⟩,
   ⟨140000, 9080, 1995, some swSector, 0, 0⟩,
   ⟨145000, 9090, 1995, some swSector, 0, 0⟩]

/--
C4 counterexample: on three same-year transactions in one sector — a
`(sector, year)` bucket with `tx_count = 3 ≥ 3` in year 2020, which the
claim says becomes a sample — the code's `aggregate_price_history` (default
`min_transactions = 10`) produces no row at all, while the aggregator the
claim describes produces exactly one sample keyed `("SW7 3", 2020)` with
count 3. -/
theorem C4_counterexample :
    aggregate_price_history txs4 10 = [] ∧
    (claimAggregate txs4).map (fun b => (b.sector, b.year, b.tx_count)) =
      [(swSector, 2020, 3)] :=
  ⟨rfl, rfl⟩

/--
C4 witness: the sector-only grouping applied to the concrete tables: the
ten pre-2000 transactions of `txs1995` yield exactly one row keyed by the
sector (no year in the key, no pre-2000 exclusion), and the three
transactions of `txs4` fall below the default floor of 10 and yield no
row. -/
theorem C4_witness :
    (aggregate_price_history txs1995 10).map (fun r => r.postcode_sector) =
      [swSector] ∧
    (aggregate_price_history txs4 10).map (fun r => r.postcode_sector) =
      [] := by
  constructor
  · rw [(C4_aggregate_by_sector_only txs1995 10).1]
    rfl
  · rw [(C4_aggregate_by_sector_only txs4 10).1]
    rfl

/-! ### Spatial-lag feature computation
Embedding of `calculate_spatial_lag_features` (lines 250-297) and
`_get_default_spatial_lag_features` (lines 299-313).  The scipy `KDTree` is
external-library code; it is modelled as the pair of the
`postcode_sectors` array and the `(distance, index)` list its
`query(target, k = n_spatial_neighbors+1)` call returns for the target
(ascending distance, the target itself first); `None` for the whole pair
models `self.spatial_tree is None`.  `numpy.average` raises when the value
and weight lengths differ; this is an `Except.error`.  The `spatial_std_*`
outputs of `numpy.std` are square roots and are carried squared, as
`spatial_std_sq_*` (population variance). -/

/-- A row of the sector-statistics dataframe with the five key feature
columns the spatial-lag computation reads. -/
structure SpatialStatsRow where
  postcode_sector : PyStr
  median_price : ℚ
  price_growth_1yr : ℚ
  price_volatility : ℚ
  max_drawdown : ℚ
  n_recent_transactions : ℚ
deriving DecidableEq

/-- The spatial-lag feature dict; `spatial_std_sq_*` carries the square of
the source's `spatial_std_*`. -/
structure SpatialLagFeatures where
  spatial_lag_median_price : ℚ
  spatial_std_sq_median_price : ℚ
  spatial_lag_price_growth_1yr : ℚ
  spatial_std_sq_price_growth_1yr : ℚ
  spatial_lag_price_volatility : ℚ
  spatial_std_sq_price_volatility : ℚ
  spatial_lag_max_drawdown : ℚ
  spatial_std_sq_max_drawdown : ℚ
  spatial_lag_n_recent_transactions : ℚ
  spatial_std_sq_n_recent_transactions : ℚ
  avg_neighbor_distance_km : ℚ
deriving DecidableEq

/-- `_get_default_spatial_lag_features`: the all-zero vector of the same
shape. -/
def default_spatial_lag_features : SpatialLagFeatures :=
  ⟨0, 0, 0, 0, 0, 0, 0, 0, 0, 0, 0⟩

/-- `numpy.average(values, weights=w)`: `Σ vᵢwᵢ / Σ wᵢ`, raising (for 1-d
input) when the two lengths differ. -/
def np_average (values weights : List ℚ) : Except String ℚ :=
  if values.length ≠ weights.length then
    Except.error ("Axis must be specified when shapes of a and weights differ.")
  else
    Except.ok (((values.zip weights).map (fun p => p.1 * p.2)).sum / weights.sum)

/-- The local `neighbor_sectors` array: the sector keys the queried
neighbor indices (`indices[0][1:]`) resolve to in `postcode_sectors`. -/
def neighborSectors (sectors : List PyStr) (query : List (ℚ × ℕ)) :
    List PyStr :=
  (query.drop 1).map (fun d => sectors.getD d.2 [])

/-- The local `neighbor_stats` table: the stats rows (in stats-table order,
`isin`) whose sector is among the queried neighbors. -/
def neighborStatsRows (sectors : List PyStr) (query : List (ℚ × ℕ))
    (stats : List SpatialStatsRow) : List SpatialStatsRow :=
  stats.filter (fun r => r.postcode_sector ∈ neighborSectors sectors query)

/-- The local `weights` array: `1/(dᵢ+0.1)` over `distances[0][1:]`,
normalized to sum 1. -/
def invDistWeights (query : List (ℚ × ℕ)) : List ℚ :=
  let wraw := ((query.drop 1).map (fun d => d.1)).map (fun d => 1 / (d + 1/10))
  wraw.map (fun w => w / wraw.sum)

/-- The value `numpy.average` returns on equal-length input:
`Σ vᵢwᵢ / Σ wᵢ`. -/
def weightedAvg (values weights : List ℚ) : ℚ :=
  ((values.zip weights).map (fun p => p.1 * p.2)).sum / weights.sum

/-- `calculate_spatial_lag_features(postcode_sector, sector_stats_df)`:
default vector when the tree is absent, the target sector is not in the
index, or no queried neighbor sector has a stats row; otherwise, per key
statistic, the `numpy.average` of the stats-table-ordered neighbor values
(truncated to the weight count) against the normalized inverse-distance
weights, together with the squared unweighted `numpy.std`, and the mean
neighbor distance times 111. -/
def calculate_spatial_lag_features
    (spatial_index : Option (List PyStr × List (ℚ × ℕ)))
    (target : PyStr) (sector_stats : List SpatialStatsRow) :
    Except String SpatialLagFeatures :=
  match spatial_index with
  | none => Except.ok default_spatial_lag_features
  | some (postcode_sectors, query) =>
    if target ∈ postcode_sectors then
      let neighbor_stats := neighborStatsRows postcode_sectors query sector_stats
      if neighbor_stats = [] then Except.ok default_spatial_lag_features
      else
        let weights := invDistWeights query
        let v1 := (neighbor_stats.map (fun r => r.median_price)).take weights.length
        let v2 := (neighbor_stats.map (fun r => r.price_growth_1yr)).take weights.length
        let v3 := (neighbor_stats.map (fun r => r.price_volatility)).take weights.length
        let v4 := (neighbor_stats.map (fun r => r.max_drawdown)).take weights.length
        let v5 := (neighbor_stats.map (fun r => r.n_recent_transactions)).take weights.length
        do
          let a1 ← np_average v1 weights
          let a2 ← np_average v2 weights
          let a3 ← np_average v3 weights
          let a4 ← np_average v4 weights
          let a5 ← np_average v5 weights
          Except.ok {
            spatial_lag_median_price := a1,
            spatial_std_sq_median_price := popVar v1,
            spatial_lag_price_growth_1yr := a2,
            spatial_std_sq_price_growth_1yr := popVar v2,
            spatial_lag_price_volatility := a3,
            spatial_std_sq_price_volatility := popVar v3,
            spatial_lag_max_drawdown := a4,
            spatial_std_sq_max_drawdown := popVar v4,
            spatial_lag_n_recent_transactions := a5,
            spatial_std_sq_n_recent_transactions := popVar v5,
            avg_neighbor_distance_km :=
              listMean ((query.drop 1).map (fun d => d.1)) * 111 }
    else Except.ok default_spatial_lag_features

lemma np_average_ok (values weights : List ℚ)
    (h : values.length = weights.length) :
    np_average values weights = Except.ok (weightedAvg values weights) := by
  simp [np_average, h, weightedAvg]

lemma np_average_err (values weights : List ℚ)
    (h : values.length ≠ weights.length) :
    np_average values weights =
      Except.error ("Axis must be specified when shapes of a and weights differ.") := by
  simp [np_average, h]

lemma invDistWeights_length (query : List (ℚ × ℕ)) :
    (invDistWeights query).length = (query.drop 1).length := by
  simp [invDistWeights]

/--
C5: corrected.  With the spatial tree absent, the target sector missing
from the index, or no queried neighbor having a stats row, the function
returns the all-zero default vector of stable shape; when every weight
position is matched by a stats row it returns the inverse-distance-weighted
averages (`w = 1/(d+0.1)` normalized to sum 1), the squared unweighted
population standard deviations, and the mean neighbor distance times 111;
but when only some of the queried neighbors have stats rows,
`numpy.average` raises on the length mismatch — the function does not never
raise, contrary to the claim.
-/
theorem C5_spatial_lag_characterization (sectors : List PyStr)
    (query : List (ℚ × ℕ)) (target : PyStr)
    (stats : List SpatialStatsRow) :
    (calculate_spatial_lag_features none target stats =
      Except.ok default_spatial_lag_features) ∧
    (target ∉ sectors →
      calculate_spatial_lag_features (some (sectors, query)) target stats =
        Except.ok default_spatial_lag_features) ∧
    (target ∈ sectors → neighborStatsRows sectors query stats = [] →
      calculate_spatial_lag_features (some (sectors, query)) target stats =
        Except.ok default_spatial_lag_features) ∧
    (target ∈ sectors →
      neighborStatsRows sectors query stats ≠ [] →
      (invDistWeights query).length ≤
        (neighborStatsRows sectors query stats).length →
      calculate_spatial_lag_features (some (sectors, query)) target stats =
        Except.ok {
          spatial_lag_median_price := weightedAvg
            (((neighborStatsRows sectors query stats).map
              (fun r => r.median_price)).take (invDistWeights query).length)
            (invDistWeights query),
          spatial_std_sq_median_price := popVar
            (((neighborStatsRows sectors query stats).map
              (fun r => r.median_price)).take (invDistWeights query).length),
          spatial_lag_price_growth_1yr := weightedAvg
            (((neighborStatsRows sectors query stats).map
              (fun r => r.price_growth_1yr)).take (invDistWeights query).length)
            (invDistWeights query),
          spatial_std_sq_price_growth_1yr := popVar
            (((neighborStatsRows sectors query stats).map
              (fun r => r.price_growth_1yr)).take (invDistWeights query).length),
          spatial_lag_price_volatility := weightedAvg
            (((neighborStatsRows sectors query stats).map
              (fun r => r.price_volatility)).take (invDistWeights query).length)
            (invDistWeights query),
          spatial_std_sq_price_volatility := popVar
            (((neighborStatsRows sectors query stats).map
              (fun r => r.price_volatility)).take (invDistWeights query).length),
          spatial_lag_max_drawdown := weightedAvg
            (((neighborStatsRows sectors query stats).map
              (fun r => r.max_drawdown)).take (invDistWeights query).length)
            (invDistWeights query),
          spatial_std_sq_max_drawdown := popVar
            (((neighborStatsRows sectors query stats).map
              (fun r => r.max_drawdown)).take (invDistWeights query).length),
          spatial_lag_n_recent_transactions := weightedAvg
            (((neighborStatsRows sectors query stats).map
              (fun r => r.n_recent_transactions)).take
                (invDistWeights query).length)
            (invDistWeights query),
          spatial_std_sq_n_recent_transactions := popVar
            (((neighborStatsRows sectors query stats).map
              (fun r => r.n_recent_transactions)).take
                (invDistWeights query).length),
          avg_neighbor_distance_km :=
            listMean ((query.drop 1).map (fun d => d.1)) * 111 }) ∧
    (target ∈ sectors →
      neighborStatsRows sectors query stats ≠ [] →
      (neighborStatsRows sectors query stats).length <
        (invDistWeights query).length →
      calculate_spatial_lag_features (some (sectors, query)) target stats =
        Except.error
          ("Axis must be specified when shapes of a and weights differ.")) := by
  refine ⟨rfl, ?_, ?_, ?_, ?_⟩
  · intro h
    simp only [calculate_spatial_lag_features, if_neg h]
  · intro h1 h2
    simp only [calculate_spatial_lag_features, if_pos h1, h2, if_pos]
  · intro h1 h2 h3
    have hlen : ∀ (col : SpatialStatsRow → ℚ),
        (((neighborStatsRows sectors query stats).map col).take
            (invDistWeights query).length).length =
          (invDistWeights query).length := by
      intro col
      rw [List.length_take, List.length_map]
      exact Nat.min_eq_left h3
    simp only [calculate_spatial_lag_features, if_pos h1, if_neg h2]
    rw [np_average_ok _ _ (hlen (fun r => r.median_price)),
      np_average_ok _ _ (hlen (fun r => r.price_growth_1yr)),
      np_average_ok _ _ (hlen (fun r => r.price_volatility)),
      np_average_ok _ _ (hlen (fun r => r.max_drawdown)),
      np_average_ok _ _ (hlen (fun r => r.n_recent_transactions))]
    rfl
  · intro h1 h2 h3
    have hlen : (((neighborStatsRows sectors query stats).map
        (fun r => r.median_price)).take (invDistWeights query).length).length ≠
          (invDistWeights query).length := by
      rw [List.length_take, List.length_map, Nat.min_eq_right (Nat.le_of_lt h3)]
      exact Nat.ne_of_lt h3
    simp only [calculate_spatial_lag_features, if_pos h1, if_neg h2]
    rw [np_average_err _ _ hlen]
    rfl

/-- Example spatial index: six sector centroids. -/
def sectors5 : List PyStr := [['A'], ['B'], ['C'], ['D'], ['E'], ['F']]

/-- Example KDTree query result for target `"A"`: itself at distance 0,
then its five neighbors at distance 1. -/
def query5 : List (ℚ × ℕ) := [(0, 0), (1, 1), (1, 2), (1, 3), (1, 4), (1, 5)]

/-- Stats table containing rows for all five neighbor sectors. -/
def statsFull5 : List SpatialStatsRow :=
  [⟨['B'], 100, 2, 3, 4, 5⟩, ⟨['C'], 200, 2, 3, 4, 5⟩,
   ⟨['D'], 300, 2, 3, 4, 5⟩, ⟨['E'], 400, 2, 3, 4, 5⟩,
   ⟨['F'], 500, 2, 3, 4, 5⟩]

/-- Stats table containing rows for only two of the five neighbor
sectors. -/
def statsPartial5 : List SpatialStatsRow :=
  [⟨['B'], 100, 2, 3, 4, 5⟩, ⟨['C'], 200, 2, 3, 4, 5⟩]

/--
C5 counterexample: with the target sector present in the index but only two
of its five queried neighbors present in the stats table, the function
raises (`numpy.average` length mismatch) instead of returning a feature
vector — refuting the claim that it never raises. -/
theorem C5_counterexample :
    calculate_spatial_lag_features (some (sectors5, query5)) (['A'])
        statsPartial5 =
      Except.error
        ("Axis must be specified when shapes of a and weights differ.") ∧
    (['A']) ∈ sectors5 ∧
    neighborStatsRows sectors5 query5 statsPartial5 ≠ [] := by
  refine ⟨rfl, by decide, by decide⟩

/--
C5 witness: the characterization at concrete inputs — absent tree and
absent target sector both give the all-zero default, and with all five
neighbors present (all at distance 1, so weights 1/5 each) the result is
the plain average 300 of the neighbor medians, population variance 20000,
the constant columns with variance 0, and mean distance 111 km. -/
theorem C5_witness :
    calculate_spatial_lag_features none (['A']) statsPartial5 =
      Except.ok default_spatial_lag_features ∧
    calculate_spatial_lag_features (some (sectors5, query5)) (['Z'])
        statsPartial5 = Except.ok default_spatial_lag_features ∧
    calculate_spatial_lag_features (some (sectors5, query5)) (['A'])
        statsFull5 =
      Except.ok ⟨300, 20000, 2, 0, 3, 0, 4, 0, 5, 0, 111⟩ := by
  refine ⟨(C5_spatial_lag_characterization sectors5 query5 (['A'])
      statsPartial5).1,
    (C5_spatial_lag_characterization sectors5 query5 (['Z'])
      statsPartial5).2.1 (by decide), ?_⟩
  have h := (C5_spatial_lag_characterization sectors5 query5 (['A'])
    statsFull5).2.2.2.1 (by decide) (by decide) (by decide)
  rw [h]
  have hns : neighborStatsRows sectors5 query5 statsFull5 = statsFull5 := rfl
  have hw : invDistWeights query5 = [1/5, 1/5, 1/5, 1/5, 1/5] := by
    norm_num [invDistWeights, query5]
  rw [hns, hw]
  norm_num [weightedAvg, popVar, listMean, statsFull5, query5,
    List.take_succ_cons, List.take_zero, List.zip_cons_cons,
    SpatialLagFeatures.mk.injEq]

/-! ### Ensemble weights and prediction uncertainty
Embeddings of `optimize_weights` (lines 593-622) and the uncertainty
computations of `predict_ensemble` (lines 624-658).  Validation accuracies
and class probabilities are real numbers; `exp` and `log` force these
definitions into ℝ. -/

/-- `optimize_weights`: the softmax `exp(5·accᵢ) / Σⱼ exp(5·accⱼ)` of the
three per-learner validation accuracies (fixed inverse temperature 5). -/
noncomputable def optimize_weights (accs : Fin 3 → ℝ) : Fin 3 → ℝ :=
  fun i => Real.exp (accs i * 5) / ∑ j : Fin 3, Real.exp (accs j * 5)

/-- The weighted-voting mixed class probabilities
`w_lgb·lgb_probs + w_rf·rf_probs + w_en·en_probs` per class. -/
noncomputable def votingProbs (w : Fin 3 → ℝ) (p : Fin 3 → Fin 3 → ℝ) :
    Fin 3 → ℝ :=
  fun c => ∑ m : Fin 3, w m * p m c

/-- The voting-branch uncertainty of one sample:
`np.var(all_probs, axis=0).mean(axis=1)` — the mean over classes of the
population variance of the class probability across the three learners. -/
noncomputable def votingUncertainty (p : Fin 3 → Fin 3 → ℝ) : ℝ :=
  (∑ c : Fin 3, (∑ m : Fin 3, (p m c - (∑ k : Fin 3, p k c) / 3) ^ 2) / 3) / 3

/-- The stacking-branch uncertainty of one sample:
`-Σ probs·log(probs + 1e-10)` over the meta-learner's output
distribution. -/
noncomputable def stackingUncertainty (probs : Fin 3 → ℝ) : ℝ :=
  -∑ c : Fin 3, probs c * Real.log (probs c + 1/10000000000)

/-- The Shannon entropy `-Σ probs·log(probs)` the spec speaks of, for
comparison with `stackingUncertainty`. -/
noncomputable def shannonEntropy (probs : Fin 3 → ℝ) : ℝ :=
  -∑ c : Fin 3, probs c * Real.log (probs c)

/--
C9: corrected.  The ensemble weights are the fixed-temperature softmax of
the three validation accuracies: each weight is positive, the three sum to
1, and a strictly more accurate learner gets a strictly larger weight.  The
voting uncertainty is the mean over classes of the population variance of
the class-probability vectors across the three learners (zero exactly when
the learners agree with the cross-learner mean, and never negative).  The
stacking uncertainty, however, is the ε-stabilized quantity
`-Σ p·log(p+1e-10)`, which is bounded by — but not equal to — the Shannon
entropy of the meta output.
-/
theorem C9_weights_and_uncertainty (accs : Fin 3 → ℝ)
    (p : Fin 3 → Fin 3 → ℝ) (probs : Fin 3 → ℝ) :
    (∀ i, 0 < optimize_weights accs i) ∧
    (∑ i : Fin 3, optimize_weights accs i = 1) ∧
    (∀ i j, accs j < accs i →
      optimize_weights accs j < optimize_weights accs i) ∧
    (votingUncertainty p = 0 ↔
      ∀ m c, p m c = (∑ k : Fin 3, p k c) / 3) ∧
    (0 ≤ votingUncertainty p) ∧
    ((∀ c, 0 ≤ probs c) →
      stackingUncertainty probs ≤ shannonEntropy probs) := by
  have hSpos : (0 : ℝ) < ∑ j : Fin 3, Real.exp (accs j * 5) :=
    Finset.sum_pos (fun j _ => Real.exp_pos _) Finset.univ_nonempty
  refine ⟨?_, ?_, ?_, ?_, ?_, ?_⟩
  · intro i
    exact div_pos (Real.exp_pos _) hSpos
  · simp only [optimize_weights]
    rw [← Finset.sum_div, div_self (ne_of_gt hSpos)]
  · intro i j hij
    have h5 : accs j * 5 < accs i * 5 :=
      mul_lt_mul_of_pos_right hij (by norm_num)
    exact (div_lt_div_iff_of_pos_right hSpos).mpr (Real.exp_lt_exp.mpr h5)
  · have hterm : ∀ c : Fin 3,
        (0 : ℝ) ≤ (∑ m : Fin 3, (p m c - (∑ k : Fin 3, p k c) / 3) ^ 2) / 3 :=
      fun c => by positivity
    constructor
    · intro h0 m c
      rw [votingUncertainty] at h0
      have h3 : (3 : ℝ) ≠ 0 := by norm_num
      have hsum0 : ∑ c : Fin 3,
          (∑ m : Fin 3, (p m c - (∑ k : Fin 3, p k c) / 3) ^ 2) / 3 = 0 :=
        (div_eq_zero_iff.mp h0).resolve_right h3
      have hc := (Finset.sum_eq_zero_iff_of_nonneg
        (fun c _ => hterm c)).mp hsum0 c (Finset.mem_univ c)
      have hin : ∑ m : Fin 3, (p m c - (∑ k : Fin 3, p k c) / 3) ^ 2 = 0 :=
        (div_eq_zero_iff.mp hc).resolve_right h3
      have hm := (Finset.sum_eq_zero_iff_of_nonneg
        (fun m _ => sq_nonneg _)).mp hin m (Finset.mem_univ m)
      have hz := pow_eq_zero_iff (by norm_num : (2:ℕ) ≠ 0) |>.mp hm
      linarith [hz]
    · intro hall
      rw [votingUncertainty]
      have : ∀ c : Fin 3,
          (∑ m : Fin 3, (p m c - (∑ k : Fin 3, p k c) / 3) ^ 2) / 3 = 0 := by
        intro c
        have : ∀ m : Fin 3, (p m c - (∑ k : Fin 3, p k c) / 3) ^ 2 = 0 := by
          intro m
          rw [hall m c]
          ring
        rw [Finset.sum_congr rfl (fun m _ => this m), Finset.sum_const]
        norm_num
      rw [Finset.sum_congr rfl (fun c _ => this c), Finset.sum_const]
      norm_num
  · rw [votingUncertainty]
    positivity
  · intro hpos
    rw [stackingUncertainty, shannonEntropy, neg_le_neg_iff]
    apply Finset.sum_le_sum
    intro c _
    rcases eq_or_lt_of_le (hpos c) with hzero | hgt
    · rw [← hzero]
      simp
    · apply mul_le_mul_of_nonneg_left _ (le_of_lt hgt)
      exact Real.log_le_log hgt (by norm_num)

/-- Example meta-learner output distribution (1/2, 1/2, 0). -/
noncomputable def c9meta : Fin 3 → ℝ := ![1/2, 1/2, 0]

/-- Example validation accuracies (0.5, 0.6, 0.7). -/
noncomputable def c9accs : Fin 3 → ℝ := ![1/2, 3/5, 7/10]

/-- Example base-learner class probabilities: the three learners agree on
the uniform distribution. -/
noncomputable def c9probs : Fin 3 → Fin 3 → ℝ := fun _ _ => 1/3

/--
C9 counterexample: at the meta output (1/2, 1/2, 0) the code's stacking
uncertainty `-Σ p·log(p+1e-10)` is strictly below `log 2`, the Shannon
entropy of that distribution, so the reported uncertainty is not the
entropy of the meta-learner's output distribution. -/
theorem C9_counterexample :
    stackingUncertainty c9meta < shannonEntropy c9meta ∧
    stackingUncertainty c9meta ≠ shannonEntropy c9meta := by
  have hlt : Real.log (1/2) < Real.log (1/2 + 1/10000000000) :=
    Real.log_lt_log (by norm_num) (by norm_num)
  have hval : stackingUncertainty c9meta < shannonEntropy c9meta := by
    rw [stackingUncertainty, shannonEntropy]
    simp only [c9meta, Fin.sum_univ_three, Matrix.cons_val_zero,
      Matrix.cons_val_one, Matrix.head_cons, Matrix.cons_val_two,
      Matrix.tail_cons]
    rw [zero_add, zero_mul, add_zero, zero_mul, add_zero]
    linarith [hlt]
  exact ⟨hval, ne_of_lt hval⟩

/--
C9 witness: the weight and uncertainty characterization at concrete values:
accuracies (0.5, 0.6, 0.7) give positive softmax weights summing to 1 with
the most accurate learner weighted above the middle one; three agreeing
learners give voting uncertainty 0; and the non-negative meta distribution
(1/2, 1/2, 0) has stacking uncertainty at most its entropy. -/
theorem C9_witness :
    (0 : ℝ) < optimize_weights c9accs 0 ∧
    (∑ i : Fin 3, optimize_weights c9accs i = 1) ∧
    optimize_weights c9accs 1 < optimize_weights c9accs 2 ∧
    votingUncertainty c9probs = 0 ∧
    stackingUncertainty c9meta ≤ shannonEntropy c9meta := by
  have h := C9_weights_and_uncertainty c9accs c9probs c9meta
  refine ⟨h.1 0, h.2.1, ?_, ?_, ?_⟩
  · apply h.2.2.1 2 1
    show c9accs 1 < c9accs 2
    simp only [c9accs, Matrix.cons_val_one, Matrix.head_cons,
      Matrix.cons_val_two, Matrix.tail_cons]
    norm_num
  · apply h.2.2.2.1.mpr
    intro m c
    show (1/3 : ℝ) = (∑ k : Fin 3, c9probs k c) / 3
    simp only [c9probs, Fin.sum_univ_three]
    norm_num
  · apply h.2.2.2.2.2
    intro c
    fin_cases c <;>
      simp only [c9meta, Matrix.cons_val_zero, Matrix.cons_val_one,
        Matrix.head_cons, Matrix.cons_val_two, Matrix.tail_cons] <;>
      norm_num

end Resilience
